import Mathlib

/-!
Verification development for the cosmic-ext-radio-applet core:
a shallow embedding of `src/api.rs` (station directory search with
ordered mirror fallback and null-field normalization) and of
`src/audio.rs` (the single-process mpv playback supervisor).

External effects (the HTTP stack, the WHATWG URL parser of the `url`
crate, OS process spawning and signalling) are modelled as oracle
parameters; the repository's own control flow is translated line by
line. Observable effects (which mirrors are contacted, which processes
are spawned, signalled, and reaped) are recorded in instrumentation
fields so that the protocol-level properties can be stated.
-/

namespace Radio

/-! ## Embedding of src/api.rs -/

/-- `Station` from api.rs: nine guaranteed-present string fields. -/
structure Station where
  stationuuid : String
  name : String
  url : String
  url_resolved : String
  homepage : String
  favicon : String
  tags : String
  country : String
  language : String
deriving DecidableEq

/-- `ApiStation` from api.rs: the intermediate wire struct in which every
field is individually nullable (`Option<String>` with serde default). -/
structure ApiStation where
  stationuuid : Option String
  name : Option String
  url : Option String
  url_resolved : Option String
  homepage : Option String
  favicon : Option String
  tags : Option String
  country : Option String
  language : Option String
deriving DecidableEq

/-- `impl From<ApiStation> for Station`: every field goes through
`unwrap_or_default()`, i.e. `Option.getD ""`. -/
def stationFrom (api : ApiStation) : Station :=
  { stationuuid := api.stationuuid.getD ""
  , name := api.name.getD ""
  , url := api.url.getD ""
  , url_resolved := api.url_resolved.getD ""
  , homepage := api.homepage.getD ""
  , favicon := api.favicon.getD ""
  , tags := api.tags.getD ""
  , country := api.country.getD ""
  , language := api.language.getD "" }

/-- Errors carried by `reqwest::Error`; modelled as opaque messages. -/
abbrev ApiError := String

/-- The complete outcome of one mirror interaction in `search_stations`:
connection-level failure of `send()`, non-success HTTP status from
`error_for_status()`, body decode failure of `json::<Vec<ApiStation>>()`,
or a successfully parsed record list. -/
inductive MirrorResponse where
  | connError (e : ApiError)
  | httpError (e : ApiError)
  | parseError (e : ApiError)
  | ok (records : List ApiStation)
deriving DecidableEq

/-- Whether the mirror interaction produced a parsed record list. -/
def MirrorResponse.isOk : MirrorResponse → Bool
  | .ok _ => true
  | _ => false

/-- The error payload of a failed mirror interaction. -/
def MirrorResponse.errPayload : MirrorResponse → Option ApiError
  | .connError e => some e
  | .httpError e => some e
  | .parseError e => some e
  | .ok _ => none

/-- `API_SERVERS` from api.rs: the fixed ordered mirror list. -/
def API_SERVERS : List String :=
  [ "https://all.api.radio-browser.info"
  , "https://de1.api.radio-browser.info"
  , "https://fr1.api.radio-browser.info"
  , "https://at1.api.radio-browser.info"
  , "https://nl1.api.radio-browser.info"
  , "https://us1.api.radio-browser.info"
  , "https://es1.api.radio-browser.info" ]

/-- Result of `search_stations`, instrumented with the list of mirrors
actually contacted, in contact order. -/
structure SearchOutcome where
  result : Except ApiError (List Station)
  contacted : List String

/-- The `for server in API_SERVERS` loop of `search_stations`: each
failing arm records the error in `last_error` and advances; the first
parsed record list returns immediately; an exhausted list returns the
last error when one was recorded and `Ok(vec![])` otherwise. -/
def searchLoop (net : String → MirrorResponse) :
    List String → Option ApiError → SearchOutcome
  | [], lastError =>
    match lastError with
    | some e => ⟨.error e, []⟩
    | none => ⟨.ok [], []⟩
  | server :: rest, _lastError =>
    match net server with
    | .ok apiStations => ⟨.ok (apiStations.map stationFrom), [server]⟩
    | .connError e | .httpError e | .parseError e =>
      let r := searchLoop net rest (some e)
      ⟨r.result, server :: r.contacted⟩

/-- `search_stations` from api.rs: empty trimmed query short-circuits to
`Ok(vec![])` with no network access; otherwise iterate the mirrors. -/
def search_stations (net : String → MirrorResponse) (query : String) :
    SearchOutcome :=
  if query.trim.isEmpty then ⟨.ok [], []⟩
  else searchLoop net API_SERVERS none

/-! ## Embedding of src/audio.rs

The `Mutex<Option<Child>>` slot is modelled as its serialized content
(an `Option Child`); every lock acquisition in the source ignores a
poisoned mutex, and poisoning is outside this sequential model, so the
lock is taken to always succeed. `Child` is the handle of a spawned OS
process, identified by its pid. `Url::parse` (external `url` crate) is
an oracle returning the scheme and host string of the parsed absolute
URL, or `none` when parsing fails. -/

/-- An OS process handle, identified by pid. -/
abbrev Child := Nat

/-- The outcome of `Url::parse` visible to `validate_url`: the scheme
and the optional host string of a successfully parsed absolute URL. -/
structure ParsedUrl where
  scheme : String
  host_str : Option String
deriving DecidableEq

/-- `AudioManager::validate_url`: accept only parsed http/https URLs
whose host string is not on the lexical loopback/private blocklist. -/
def validate_url (parsed : Option ParsedUrl) : Except String Unit :=
  match parsed with
  | some p =>
    if p.scheme == "http" || p.scheme == "https" then
      match p.host_str with
      | some host =>
        if host == "localhost"
            || host == "127.0.0.1"
            || host.startsWith "192.168."
            || host.startsWith "10."
            || host.startsWith "172.16." then
          .error "Local/private URLs not allowed"
        else .ok ()
      | none => .ok ()
    else .error "Only http/https URLs are allowed"
  | none => .error "Invalid URL format"

/-- The external player command line built in `AudioManager::play`. -/
structure MpvCmd where
  program : String
  args : List String
deriving DecidableEq

/-- The exact `Command::new("mpv")` argument list of `play`. -/
def mpvCommand (url : String) (volume : Nat) : MpvCmd :=
  { program := "mpv"
  , args :=
      [ "--no-video"
      , "--volume=" ++ toString volume
      , "--volume-max=200"
      , "--af=lavfi=[dynaudnorm]"
      , url ] }

/-- Error of a failed `spawn()` (an `std::io::Error` message). -/
abbrev SpawnErr := String

/-- Observable process-lifecycle events, in chronological order:
`kill c ok` records `child.kill()` and whether the signal succeeded,
`wait c` records the blocking `child.wait()` reap, `spawnOk`/`spawnErr`
record a spawn attempt and its outcome. -/
inductive Action where
  | kill (c : Child) (ok : Bool)
  | wait (c : Child)
  | spawnOk (cmd : MpvCmd) (c : Child)
  | spawnErr (cmd : MpvCmd)
deriving DecidableEq

/-- `AudioManager`: the supervisor state, the content of its
`Mutex<Option<Child>>` process slot. -/
structure AudioManager where
  process : Option Child
deriving DecidableEq

/-- `AudioManager::new`. -/
def AudioManager.new : AudioManager := ⟨none⟩

/-- `AudioManager::stop`: take any child out of the slot, signal it
(`kill`, a failure only logged), then block on `wait()`; with an empty
slot do nothing. `killOk` is the oracle for whether the signal
succeeds. -/
def stop (killOk : Child → Bool) (st : AudioManager) :
    AudioManager × List Action :=
  match st.process with
  | none => (st, [])
  | some c => (⟨none⟩, [Action.kill c (killOk c), Action.wait c])

/-- `impl Drop for AudioManager`: teardown simply calls `stop`. -/
def dropAudioManager (killOk : Child → Bool) (st : AudioManager) :
    AudioManager × List Action :=
  stop killOk st

/-- The full outcome of one `play` call: the value returned to the
caller (the Rust signature returns `()`), the supervisor state after
the call, and the process-lifecycle events it performed. -/
structure PlayOutcome where
  ret : Unit
  state : AudioManager
  trace : List Action

/-- `AudioManager::play`: validate the URL (on failure log and return,
touching nothing); then `stop()` unconditionally; then attempt to spawn
the mpv command, storing the child on success and only logging on
failure. `parse` is the `Url::parse` oracle and `spawn` the
`Command::spawn` oracle. -/
def play (parse : String → Option ParsedUrl)
    (spawn : MpvCmd → Except SpawnErr Child) (killOk : Child → Bool)
    (url : String) (volume : Nat) (st : AudioManager) : PlayOutcome :=
  match validate_url (parse url) with
  | .error _ => ⟨(), st, []⟩
  | .ok _ =>
    let stopped := stop killOk st
    let cmd := mpvCommand url volume
    match spawn cmd with
    | .ok child => ⟨(), ⟨some child⟩, stopped.2 ++ [Action.spawnOk cmd child]⟩
    | .error _ => ⟨(), stopped.1, stopped.2 ++ [Action.spawnErr cmd]⟩

/-- One lifecycle event acting on the set of live (spawned, not yet
reaped) processes: a successful spawn adds the child, a reap removes
it; a signal alone does not end the process. -/
def applyAction (acc : List Child) : Action → List Child
  | Action.spawnOk _ c => acc ++ [c]
  | Action.wait c => acc.erase c
  | Action.kill _ _ => acc
  | Action.spawnErr _ => acc

/-- The live processes after running a trace from `acc`. -/
def liveRun (acc : List Child) : List Action → List Child
  | [] => acc
  | a :: rest => liveRun (applyAction acc a) rest

/-- The live processes after a whole trace. -/
def liveAfter (t : List Action) : List Child := liveRun [] t

/-- The largest number of simultaneously live processes at any point
while running a trace from `acc`. -/
def maxLiveRun (acc : List Child) : List Action → Nat
  | [] => acc.length
  | a :: rest => max acc.length (maxLiveRun (applyAction acc a) rest)

/-- The largest number of simultaneously live processes at any point
of a trace started with no live process. -/
def maxLive (t : List Action) : Nat := maxLiveRun [] t

/-! ## Theorems about the directory client -/

/-- C8: for every query whose trimmed form is empty, `search_stations`
returns `Ok` with an empty list immediately and contacts no mirror. -/
theorem search_empty_query (net : String → MirrorResponse) (q : String)
    (h : q.trim.isEmpty = true) :
    search_stations net q = ⟨.ok [], []⟩ := by
  simp [search_stations, h]

/-- Witness for C8 at the empty query. -/
theorem search_empty_query_witness :
    search_stations (fun _ => MirrorResponse.ok []) "" = ⟨.ok [], []⟩ :=
  search_empty_query (fun _ => MirrorResponse.ok []) "" (by
    unfold String.trim Substring.trim String.toSubstring
    unfold Substring.takeWhileAux Substring.takeRightWhileAux
    simp
    decide)

/-- C3: the `ApiStation → Station` conversion maps exactly the
null/missing fields to the empty string and every present field to its
value verbatim. -/
theorem stationFrom_fields (a : ApiStation) :
    ((a.stationuuid = none → (stationFrom a).stationuuid = "")
      ∧ ∀ v, a.stationuuid = some v → (stationFrom a).stationuuid = v)
    ∧ ((a.name = none → (stationFrom a).name = "")
      ∧ ∀ v, a.name = some v → (stationFrom a).name = v)
    ∧ ((a.url = none → (stationFrom a).url = "")
      ∧ ∀ v, a.url = some v → (stationFrom a).url = v)
    ∧ ((a.url_resolved = none → (stationFrom a).url_resolved = "")
      ∧ ∀ v, a.url_resolved = some v → (stationFrom a).url_resolved = v)
    ∧ ((a.homepage = none → (stationFrom a).homepage = "")
      ∧ ∀ v, a.homepage = some v → (stationFrom a).homepage = v)
    ∧ ((a.favicon = none → (stationFrom a).favicon = "")
      ∧ ∀ v, a.favicon = some v → (stationFrom a).favicon = v)
    ∧ ((a.tags = none → (stationFrom a).tags = "")
      ∧ ∀ v, a.tags = some v → (stationFrom a).tags = v)
    ∧ ((a.country = none → (stationFrom a).country = "")
      ∧ ∀ v, a.country = some v → (stationFrom a).country = v)
    ∧ ((a.language = none → (stationFrom a).language = "")
      ∧ ∀ v, a.language = some v → (stationFrom a).language = v) := by
  refine ⟨⟨fun h => ?_, fun v h => ?_⟩, ⟨fun h => ?_, fun v h => ?_⟩,
    ⟨fun h => ?_, fun v h => ?_⟩, ⟨fun h => ?_, fun v h => ?_⟩,
    ⟨fun h => ?_, fun v h => ?_⟩, ⟨fun h => ?_, fun v h => ?_⟩,
    ⟨fun h => ?_, fun v h => ?_⟩, ⟨fun h => ?_, fun v h => ?_⟩,
    ⟨fun h => ?_, fun v h => ?_⟩⟩ <;> simp [stationFrom, h]

/-- Witness for C3 on a record with a mix of missing and present
fields: `stationuuid` and `tags` are nulled and default to `""`,
`name` and `country` are present and preserved verbatim. -/
theorem stationFrom_fields_witness :
    (stationFrom ⟨none, some "Jazz24", some "http://s.example/a", none,
        none, some "http://s.example/i.png", none, some "US", none⟩).stationuuid = ""
    ∧ (stationFrom ⟨none, some "Jazz24", some "http://s.example/a", none,
        none, some "http://s.example/i.png", none, some "US", none⟩).name = "Jazz24"
    ∧ (stationFrom ⟨none, some "Jazz24", some "http://s.example/a", none,
        none, some "http://s.example/i.png", none, some "US", none⟩).tags = ""
    ∧ (stationFrom ⟨none, some "Jazz24", some "http://s.example/a", none,
        none, some "http://s.example/i.png", none, some "US", none⟩).country = "US" :=
  ⟨(stationFrom_fields _).1.1 rfl,
   (stationFrom_fields _).2.1.2 "Jazz24" rfl,
   (stationFrom_fields _).2.2.2.2.2.2.1.1 rfl,
   (stationFrom_fields _).2.2.2.2.2.2.2.1.2 "US" rfl⟩

/-- Helper: a failed mirror interaction carries an error payload. -/
theorem errPayload_of_not_isOk (r : MirrorResponse) (h :  r.isOk = false) :
    ∃ e, r.errPayload = some e := by
  cases r with
  | connError e => exact ⟨e, rfl⟩
  | httpError e => exact ⟨e, rfl⟩
  | parseError e => exact ⟨e, rfl⟩
  | ok recs => simp [MirrorResponse.isOk] at h

/-- Helper for C1: when every mirror before `s` fails and `s` yields a
parsed record list, the loop returns that list converted and in order,
having contacted exactly the failing mirrors followed by `s`, whatever
error was recorded before and whatever mirrors follow. -/
theorem searchLoop_first_success (net : String → MirrorResponse)
    (recs : List ApiStation) :
    ∀ (pre : List String) (s : String) (post : List String)
      (le : Option ApiError),
      (∀ m ∈ pre, (net m).isOk = false) → net s = MirrorResponse.ok recs →
      searchLoop net (pre ++ s :: post) le =
        ⟨.ok (recs.map stationFrom), pre ++ [s]⟩ := by
  intro pre
  induction pre with
  | nil =>
    intro s post le _ hs
    simp [searchLoop, hs]
  | cons m pre ih =>
    intro s post le hpre hs
    have hm : (net m).isOk = false := hpre m (by simp)
    have hrest : ∀ x ∈ pre, (net x).isOk = false := by
      intro x hx
      exact hpre x (by simp [hx])
    cases hnm : net m with
    | ok r => rw [hnm] at hm; simp [MirrorResponse.isOk] at hm
    | connError e =>
      simp only [List.cons_append, searchLoop, hnm, List.append_eq,
        ih s post (some e) hrest hs]
    | httpError e =>
      simp only [List.cons_append, searchLoop, hnm, List.append_eq,
        ih s post (some e) hrest hs]
    | parseError e =>
      simp only [List.cons_append, searchLoop, hnm, List.append_eq,
        ih s post (some e) hrest hs]

/-- C1: on a non-empty trimmed query, if the mirrors before position
`k` of the fixed list all fail and the mirror at `k` yields a parsed
record list, `search_stations` returns exactly that list converted to
`Station`s in the mirror's own order, and contacts exactly the mirrors
up to and including the winner — none after it. -/
theorem search_first_success (net : String → MirrorResponse) (q : String)
    (pre : List String) (s : String) (post : List String)
    (recs : List ApiStation)
    (hq : q.trim.isEmpty = false)
    (hsplit : API_SERVERS = pre ++ s :: post)
    (hpre : ∀ m ∈ pre, (net m).isOk = false)
    (hs : net s = MirrorResponse.ok recs) :
    search_stations net q = ⟨.ok (recs.map stationFrom), pre ++ [s]⟩ := by
  rw [search_stations, hq, hsplit]
  simp only [Bool.false_eq_true, if_false]
  exact searchLoop_first_success net recs pre s post none hpre hs

/-- Witness for C1 with the query `"jazz"` against a network where the
first mirror refuses the connection and the second returns one record:
the result is that record normalized, and mirrors three to seven are
never contacted. -/
theorem search_first_success_witness :
    search_stations
      (fun m =>
        if m = "https://all.api.radio-browser.info" then
          MirrorResponse.connError "connection refused"
        else MirrorResponse.ok
          [⟨some "u1", some "Jazz24", none, none, none, none, none, none, none⟩])
      "jazz" =
      ⟨.ok [⟨"u1", "Jazz24", "", "", "", "", "", "", ""⟩],
        [ "https://all.api.radio-browser.info"
        , "https://de1.api.radio-browser.info" ]⟩ :=
  search_first_success _ "jazz" ["https://all.api.radio-browser.info"]
    "https://de1.api.radio-browser.info"
    [ "https://fr1.api.radio-browser.info"
    , "https://at1.api.radio-browser.info"
    , "https://nl1.api.radio-browser.info"
    , "https://us1.api.radio-browser.info"
    , "https://es1.api.radio-browser.info" ]
    [⟨some "u1", some "Jazz24", none, none, none, none, none, none, none⟩]
    (by
      unfold String.trim Substring.trim String.toSubstring
      unfold Substring.takeWhileAux Substring.takeRightWhileAux
      simp
      decide)
    (by decide)
    (by decide)
    (by decide)

/-- Helper: one failing step of the mirror loop records the error and
advances to the rest of the list. -/
theorem searchLoop_cons_err (net : String → MirrorResponse)
    (server : String) (rest : List String) (le : Option ApiError)
    (e : ApiError) (h : (net server).errPayload = some e) :
    searchLoop net (server :: rest) le =
      ⟨(searchLoop net rest (some e)).result,
        server :: (searchLoop net rest (some e)).contacted⟩ := by
  cases hnm : net server with
  | ok recs => rw [hnm] at h; simp [MirrorResponse.errPayload] at h
  | connError e1 =>
    rw [hnm] at h
    simp only [MirrorResponse.errPayload, Option.some_inj] at h
    subst h
    simp only [searchLoop, hnm]
  | httpError e1 =>
    rw [hnm] at h
    simp only [MirrorResponse.errPayload, Option.some_inj] at h
    subst h
    simp only [searchLoop, hnm]
  | parseError e1 =>
    rw [hnm] at h
    simp only [MirrorResponse.errPayload, Option.some_inj] at h
    subst h
    simp only [searchLoop, hnm]

/-- Helper for C2: when every mirror in a non-empty list fails, the
loop exhausts the whole list, contacting every mirror, and returns the
error payload of the last mirror, whatever error was recorded before
entering the list. -/
theorem searchLoop_all_fail (net : String → MirrorResponse) :
    ∀ (s : String) (rest : List String) (le : Option ApiError)
      (lastS : String) (e : ApiError),
      (∀ m ∈ s :: rest, (net m).isOk = false) →
      (s :: rest).getLast? = some lastS →
      (net lastS).errPayload = some e →
      searchLoop net (s :: rest) le = ⟨.error e, s :: rest⟩ := by
  intro s rest
  induction rest generalizing s with
  | nil =>
    intro le lastS e hfail hlast hpay
    have hsl : lastS = s := by
      simp [List.getLast?] at hlast
      exact hlast.symm
    subst hsl
    have hm : (net lastS).isOk = false := hfail lastS (by simp)
    cases hnm : net lastS with
    | ok r => rw [hnm] at hm; simp [MirrorResponse.isOk] at hm
    | connError e1 =>
      rw [hnm] at hpay
      simp [MirrorResponse.errPayload] at hpay
      subst hpay
      simp [searchLoop, hnm]
    | httpError e1 =>
      rw [hnm] at hpay
      simp [MirrorResponse.errPayload] at hpay
      subst hpay
      simp [searchLoop, hnm]
    | parseError e1 =>
      rw [hnm] at hpay
      simp [MirrorResponse.errPayload] at hpay
      subst hpay
      simp [searchLoop, hnm]
  | cons r rest ih =>
    intro le lastS e hfail hlast hpay
    have hm : (net s).isOk = false := hfail s (by simp)
    have hrest : ∀ m ∈ r :: rest, (net m).isOk = false := by
      intro x hx
      exact hfail x (by simp at hx ⊢; tauto)
    have hlast2 : (r :: rest).getLast? = some lastS := by
      rw [List.getLast?_cons_cons] at hlast
      exact hlast
    cases hnm : net s with
    | ok recs => rw [hnm] at hm; simp [MirrorResponse.isOk] at hm
    | connError e1 =>
      rw [searchLoop_cons_err net s (r :: rest) le e1 (by rw [hnm]; rfl),
        ih r (some e1) lastS e hrest hlast2 hpay]
    | httpError e1 =>
      rw [searchLoop_cons_err net s (r :: rest) le e1 (by rw [hnm]; rfl),
        ih r (some e1) lastS e hrest hlast2 hpay]
    | parseError e1 =>
      rw [searchLoop_cons_err net s (r :: rest) le e1 (by rw [hnm]; rfl),
        ih r (some e1) lastS e hrest hlast2 hpay]

/-- C2: on a non-empty trimmed query, when every mirror of the fixed
list fails, `search_stations` contacts all seven mirrors in order and
returns `Err` carrying exactly the error recorded from the last mirror
attempted — no composite of the failures and no fabricated `Ok`. -/
theorem search_all_fail (net : String → MirrorResponse) (q : String)
    (e : ApiError)
    (hq : q.trim.isEmpty = false)
    (hfail : ∀ m ∈ API_SERVERS, (net m).isOk = false)
    (hlast : (net "https://es1.api.radio-browser.info").errPayload = some e) :
    search_stations net q = ⟨.error e, API_SERVERS⟩ := by
  rw [search_stations, hq]
  simp only [Bool.false_eq_true, if_false]
  exact searchLoop_all_fail net "https://all.api.radio-browser.info"
    [ "https://de1.api.radio-browser.info"
    , "https://fr1.api.radio-browser.info"
    , "https://at1.api.radio-browser.info"
    , "https://nl1.api.radio-browser.info"
    , "https://us1.api.radio-browser.info"
    , "https://es1.api.radio-browser.info" ]
    none "https://es1.api.radio-browser.info" e hfail (by decide) hlast

/-- Witness for C2: all mirrors answer HTTP 503; the result is the
last mirror's error and all seven mirrors were contacted. -/
theorem search_all_fail_witness :
    search_stations
      (fun m => MirrorResponse.httpError ("503 from " ++ m)) "jazz" =
      ⟨.error "503 from https://es1.api.radio-browser.info", API_SERVERS⟩ :=
  search_all_fail (fun m => MirrorResponse.httpError ("503 from " ++ m))
    "jazz" "503 from https://es1.api.radio-browser.info"
    (by
      unfold String.trim Substring.trim String.toSubstring
      unfold Substring.takeWhileAux Substring.takeRightWhileAux
      simp
      decide)
    (by decide)
    (by decide)

/-! ## Theorems about the playback supervisor -/

/-- C5: for every url that does not parse as an absolute URL, or whose
scheme is neither `http` nor `https`, `validate_url` fails with the
corresponding scheme/format validation error and `play` spawns no
process and performs no further action: the state is untouched and the
event trace is empty. -/
theorem play_invalid_url (parse : String → Option ParsedUrl) (u : String)
    (h : parse u = none
      ∨ ∃ p, parse u = some p ∧ p.scheme ≠ "http" ∧ p.scheme ≠ "https") :
    (validate_url (parse u) = Except.error "Invalid URL format"
      ∨ validate_url (parse u) = Except.error "Only http/https URLs are allowed")
    ∧ ∀ (spawn : MpvCmd → Except SpawnErr Child) (killOk : Child → Bool)
        (v : Nat) (st : AudioManager),
      play parse spawn killOk u v st = ⟨(), st, []⟩ := by
  have hval : validate_url (parse u) = Except.error "Invalid URL format"
      ∨ validate_url (parse u) = Except.error "Only http/https URLs are allowed" := by
    rcases h with h | ⟨p, hp, h1, h2⟩
    · left; rw [h]; rfl
    · right
      rw [hp]
      simp [validate_url, h1, h2]
  refine ⟨hval, ?_⟩
  intro spawn killOk v st
  rcases hval with hv | hv <;> simp [play, hv]

/-- Witness for C5 at an unparsable url and at an `ftp` url: both are
rejected and leave an arbitrary supervisor state untouched. -/
theorem play_invalid_url_witness :
    play (fun _ => none) (fun _ => Except.ok 9) (fun _ => true)
        "not a url" 50 ⟨some 3⟩ = ⟨(), ⟨some 3⟩, []⟩
    ∧ play (fun _ => some ⟨"ftp", some "fm"⟩) (fun _ => Except.ok 9)
        (fun _ => true) "ftp://fm/x" 50 ⟨some 3⟩ = ⟨(), ⟨some 3⟩, []⟩ :=
  ⟨(play_invalid_url (fun _ => none) "not a url" (Or.inl rfl)).2
      (fun _ => Except.ok 9) (fun _ => true) 50 ⟨some 3⟩,
   (play_invalid_url (fun _ => some ⟨"ftp", some "fm"⟩) "ftp://fm/x"
      (Or.inr ⟨⟨"ftp", some "fm"⟩, rfl, by decide, by decide⟩)).2
      (fun _ => Except.ok 9) (fun _ => true) 50 ⟨some 3⟩⟩

/-- C6: for every http/https URL, if the host string is exactly
`localhost` or `127.0.0.1` or begins with `192.168.`, `10.` or
`172.16.`, then `validate_url` fails with the private-host error and
`play` spawns no process and performs no further action; the check is
purely lexical, so a present host matching none of the five patterns
passes validation. -/
theorem play_private_host (parse : String → Option ParsedUrl) (u : String)
    (p : ParsedUrl) (hp : parse u = some p)
    (hs : p.scheme = "http" ∨ p.scheme = "https") :
    (∀ host, p.host_str = some host →
      (host = "localhost" ∨ host = "127.0.0.1"
        ∨ host.startsWith "192.168." = true
        ∨ host.startsWith "10." = true
        ∨ host.startsWith "172.16." = true) →
      validate_url (parse u) = Except.error "Local/private URLs not allowed"
      ∧ ∀ (spawn : MpvCmd → Except SpawnErr Child) (killOk : Child → Bool)
          (v : Nat) (st : AudioManager),
        play parse spawn killOk u v st = ⟨(), st, []⟩)
    ∧ (∀ host, p.host_str = some host →
      ¬(host = "localhost" ∨ host = "127.0.0.1"
        ∨ host.startsWith "192.168." = true
        ∨ host.startsWith "10." = true
        ∨ host.startsWith "172.16." = true) →
      validate_url (parse u) = Except.ok ()) := by
  have hcond : (p.scheme == "http" || p.scheme == "https") = true := by
    rcases hs with h | h <;> simp [h]
  constructor
  · intro host hh hb
    have hbb : (host == "localhost" || host == "127.0.0.1"
        || host.startsWith "192.168." || host.startsWith "10."
        || host.startsWith "172.16.") = true := by
      rcases hb with h | h | h | h | h <;> simp [h]
    have hval : validate_url (parse u)
        = Except.error "Local/private URLs not allowed" := by
      rw [hp]
      simp [validate_url, hcond, hh, hbb]
    refine ⟨hval, ?_⟩
    intro spawn killOk v st
    simp [play, hval]
  · intro host hh hb
    push_neg at hb
    obtain ⟨h1, h2, h3, h4, h5⟩ := hb
    have hbf : (host == "localhost" || host == "127.0.0.1"
        || host.startsWith "192.168." || host.startsWith "10."
        || host.startsWith "172.16.") = false := by
      simp [h1, h2, h3, h4, h5]
    rw [hp]
    simp [validate_url, hcond, hh, hbf]

/-- Witness for C6: a `localhost` http URL is rejected without touching
the supervisor, while the short public host `fm` passes validation. -/
theorem play_private_host_witness :
    validate_url (some ⟨"http", some "localhost"⟩)
      = Except.error "Local/private URLs not allowed"
    ∧ play (fun _ => some ⟨"http", some "localhost"⟩)
        (fun _ => Except.ok 9) (fun _ => true) "http://localhost/s" 50
        ⟨some 3⟩ = ⟨(), ⟨some 3⟩, []⟩
    ∧ validate_url (some ⟨"http", some "fm"⟩) = Except.ok () :=
  ⟨((play_private_host (fun _ => some ⟨"http", some "localhost"⟩)
      "http://localhost/s" ⟨"http", some "localhost"⟩ rfl (Or.inl rfl)).1
      "localhost" rfl (Or.inl rfl)).1,
   ((play_private_host (fun _ => some ⟨"http", some "localhost"⟩)
      "http://localhost/s" ⟨"http", some "localhost"⟩ rfl (Or.inl rfl)).1
      "localhost" rfl (Or.inl rfl)).2 (fun _ => Except.ok 9)
      (fun _ => true) 50 ⟨some 3⟩,
   (play_private_host (fun _ => some ⟨"http", some "fm"⟩) "http://fm/x"
      ⟨"http", some "fm"⟩ rfl (Or.inl rfl)).2 "fm" rfl (by decide)⟩

/-- C7: `stop` with an empty slot is a no-op leaving the supervisor
idle; with an active child it signals and reaps that child and clears
the slot, whatever the outcome of the signal (`killOk` is arbitrary);
after any `stop`, and after teardown (`Drop`, which just calls `stop`),
the process slot is empty. -/
theorem stop_clears (killOk : Child → Bool) (st : AudioManager) :
    (st.process = none → stop killOk st = (st, []))
    ∧ (∀ c, st.process = some c →
        stop killOk st = (⟨none⟩, [Action.kill c (killOk c), Action.wait c]))
    ∧ (stop killOk st).1.process = none
    ∧ (dropAudioManager killOk st).1.process = none := by
  obtain ⟨pr⟩ := st
  cases pr <;> simp [stop, dropAudioManager]

/-- Witness for C7 with a signal oracle that always fails: an idle
supervisor is untouched; an active child 5 is still signalled, reaped
and cleared. -/
theorem stop_clears_witness :
    stop (fun _ => false) ⟨none⟩ = (⟨none⟩, [])
    ∧ stop (fun _ => false) ⟨some 5⟩ =
        (⟨none⟩, [Action.kill 5 false, Action.wait 5]) :=
  ⟨(stop_clears (fun _ => false) ⟨none⟩).1 rfl,
   (stop_clears (fun _ => false) ⟨some 5⟩).2.1 5 rfl⟩

/-- C9: when a validated URL's spawn attempt fails, `play` only logs:
the supervisor ends with an empty slot (idle), the caller still gets
`()`, and the trace is the stop sequence followed by the recorded
failed spawn attempt — no session state is recorded. -/
theorem play_spawn_failure (parse : String → Option ParsedUrl)
    (spawn : MpvCmd → Except SpawnErr Child) (killOk : Child → Bool)
    (u : String) (v : Nat) (st : AudioManager) (e : SpawnErr)
    (hv : validate_url (parse u) = Except.ok ())
    (hs : spawn (mpvCommand u v) = Except.error e) :
    (play parse spawn killOk u v st).state = ⟨none⟩
    ∧ (play parse spawn killOk u v st).ret = ()
    ∧ (play parse spawn killOk u v st).trace
        = (stop killOk st).2 ++ [Action.spawnErr (mpvCommand u v)] := by
  obtain ⟨pr⟩ := st
  cases pr <;> simp [play, stop, hv, hs]

/-- Witness for C9: mpv is missing; from a supervisor playing child 7,
`play` stops that child and ends idle with only the failed attempt
logged in the trace. -/
theorem play_spawn_failure_witness :
    (play (fun _ => some ⟨"https", some "fm"⟩)
      (fun _ => Except.error "No such file or directory") (fun _ => true)
      "https://fm/s" 40 ⟨some 7⟩).state = ⟨none⟩ :=
  (play_spawn_failure (fun _ => some ⟨"https", some "fm"⟩)
    (fun _ => Except.error "No such file or directory") (fun _ => true)
    "https://fm/s" 40 ⟨some 7⟩ "No such file or directory" rfl rfl).1

/-- C10: `play` returns the unit value on every input — its signature
has no error or status channel — so a validation rejection, a spawn
failure and a successful start return identically to the caller. -/
theorem play_returns_unit (parse : String → Option ParsedUrl)
    (spawn : MpvCmd → Except SpawnErr Child) (killOk : Child → Bool)
    (u : String) (v : Nat) (st : AudioManager) :
    (play parse spawn killOk u v st).ret = ()
    ∧ ∀ (parse2 : String → Option ParsedUrl)
        (spawn2 : MpvCmd → Except SpawnErr Child) (killOk2 : Child → Bool)
        (u2 : String) (v2 : Nat) (st2 : AudioManager),
      (play parse spawn killOk u v st).ret
        = (play parse2 spawn2 killOk2 u2 v2 st2).ret :=
  ⟨rfl, fun _ _ _ _ _ _ => rfl⟩

/-- C4: two successive `play` calls on a fresh supervisor with two
valid distinct URLs whose spawns succeed: the first call only spawns;
the second call first signals and reaps the first child (the
unconditional `stop()`) and only then spawns; the final slot holds the
child spawned for the second URL's command; at most one process is
live at any point of the combined trace, and only the second child is
live at the end. -/
theorem play_twice (parse : String → Option ParsedUrl)
    (spawn : MpvCmd → Except SpawnErr Child) (killOk : Child → Bool)
    (u1 : String) (v1 : Nat) (u2 : String) (v2 : Nat) (c1 c2 : Child)
    (_hne : u1 ≠ u2)
    (h1 : validate_url (parse u1) = Except.ok ())
    (h2 : validate_url (parse u2) = Except.ok ())
    (hs1 : spawn (mpvCommand u1 v1) = Except.ok c1)
    (hs2 : spawn (mpvCommand u2 v2) = Except.ok c2) :
    (play parse spawn killOk u1 v1 AudioManager.new).trace
        = [Action.spawnOk (mpvCommand u1 v1) c1]
    ∧ (play parse spawn killOk u2 v2
        (play parse spawn killOk u1 v1 AudioManager.new).state).trace
        = [Action.kill c1 (killOk c1), Action.wait c1,
            Action.spawnOk (mpvCommand u2 v2) c2]
    ∧ (play parse spawn killOk u2 v2
        (play parse spawn killOk u1 v1 AudioManager.new).state).state.process
        = some c2
    ∧ maxLive ((play parse spawn killOk u1 v1 AudioManager.new).trace
        ++ (play parse spawn killOk u2 v2
            (play parse spawn killOk u1 v1 AudioManager.new).state).trace) ≤ 1
    ∧ liveAfter ((play parse spawn killOk u1 v1 AudioManager.new).trace
        ++ (play parse spawn killOk u2 v2
            (play parse spawn killOk u1 v1 AudioManager.new).state).trace)
        = [c2] := by
  have ho1 : play parse spawn killOk u1 v1 AudioManager.new
      = ⟨(), ⟨some c1⟩, [Action.spawnOk (mpvCommand u1 v1) c1]⟩ := by
    simp [play, AudioManager.new, stop, h1, hs1]
  have ho2 : play parse spawn killOk u2 v2 ⟨some c1⟩
      = ⟨(), ⟨some c2⟩, [Action.kill c1 (killOk c1), Action.wait c1,
          Action.spawnOk (mpvCommand u2 v2) c2]⟩ := by
    simp [play, stop, h2, hs2]
  rw [ho1]
  rw [show (PlayOutcome.mk () ⟨some c1⟩
      [Action.spawnOk (mpvCommand u1 v1) c1]).state = ⟨some c1⟩ from rfl]
  rw [ho2]
  refine ⟨rfl, rfl, rfl, ?_, ?_⟩
  · simp [maxLive, maxLiveRun, applyAction, List.erase_cons_head]
  · simp [liveAfter, liveRun, applyAction, List.erase_cons_head]

/-- Witness for C4: a network-independent parser accepting host `fm`,
a spawn oracle giving pid 1 to the first command and pid 2 to any
other; after playing url 1 then url 2, the slot holds pid 2 and only
pid 2 is live. -/
theorem play_twice_witness :
    (play (fun _ => some ⟨"http", some "fm"⟩)
      (fun cmd => if cmd = mpvCommand "http://fm/1" 50 then Except.ok 1
        else Except.ok 2)
      (fun _ => true) "http://fm/2" 60
      (play (fun _ => some ⟨"http", some "fm"⟩)
        (fun cmd => if cmd = mpvCommand "http://fm/1" 50 then Except.ok 1
          else Except.ok 2)
        (fun _ => true) "http://fm/1" 50 AudioManager.new).state).state.process
      = some 2
    ∧ liveAfter ((play (fun _ => some ⟨"http", some "fm"⟩)
        (fun cmd => if cmd = mpvCommand "http://fm/1" 50 then Except.ok 1
          else Except.ok 2)
        (fun _ => true) "http://fm/1" 50 AudioManager.new).trace
      ++ (play (fun _ => some ⟨"http", some "fm"⟩)
        (fun cmd => if cmd = mpvCommand "http://fm/1" 50 then Except.ok 1
          else Except.ok 2)
        (fun _ => true) "http://fm/2" 60
        (play (fun _ => some ⟨"http", some "fm"⟩)
          (fun cmd => if cmd = mpvCommand "http://fm/1" 50 then Except.ok 1
            else Except.ok 2)
          (fun _ => true) "http://fm/1" 50 AudioManager.new).state).trace)
      = [2] :=
  ⟨(play_twice (fun _ => some ⟨"http", some "fm"⟩)
      (fun cmd => if cmd = mpvCommand "http://fm/1" 50 then Except.ok 1
        else Except.ok 2)
      (fun _ => true) "http://fm/1" 50 "http://fm/2" 60 1 2
      (by decide) rfl rfl rfl rfl).2.2.1,
   (play_twice (fun _ => some ⟨"http", some "fm"⟩)
      (fun cmd => if cmd = mpvCommand "http://fm/1" 50 then Except.ok 1
        else Except.ok 2)
      (fun _ => true) "http://fm/1" 50 "http://fm/2" 60 1 2
      (by decide) rfl rfl rfl rfl).2.2.2.2⟩

end Radio
